import Mathlib

/-!
Shallow embedding of `src/fastembed/embedding.py` (fastembed prototype).

The Python module defines an abstract `Embedding` interface and four strategy
variants.  The stateful parts (HTTP download, archive extraction) are embedded
as pure Lean functions over an explicit filesystem state plus oracles for the
HTTP responses and the tar extractor; each function returns its result together
with the post-state and a log of its observable effects.  Python exceptions are
embedded as `Except` results; `print` diagnostics of the downloader are logged
as values of an inductive `Msg` type (their exact formatting strings are not
reproduced).  Python-level argument binding at the method call sites matters
here (two methods are declared without `self` and one classmethod without
`cls`), so call binding is embedded explicitly by `bindArgs`.
-/

namespace Fastembed

/-- Python `s.endswith(suffix)`. -/
def strEnds (s suffix : String) : Bool :=
  suffix.toList.isSuffixOf s.toList

/-- `sub` occurs as a contiguous run of `l`. -/
def listHasRun (sub : List Char) : List Char → Bool
  | [] => sub.isEmpty
  | c :: t => sub.isPrefixOf (c :: t) || listHasRun sub t

/-- Python `sub in s` (substring containment). -/
def strHasSubstr (s sub : String) : Bool :=
  listHasRun sub.toList s.toList

/-- Python `s.startswith(pre)`; used to express "path lies under a directory". -/
def strStarts (s pre : String) : Bool :=
  pre.toList.isPrefixOf s.toList

/-- Filesystem state: regular files (path with byte contents) and directories. -/
structure FS where
  files : List (String × List Nat)
  dirs : List String
deriving DecidableEq

/-- Python `os.path.isfile p`. -/
def fsIsFile (fs : FS) (p : String) : Bool :=
  fs.files.any (fun e => e.1 == p)

/-- Python `os.path.exists p` (a regular file or a directory). -/
def fsExists (fs : FS) (p : String) : Bool :=
  fsIsFile fs p || fs.dirs.contains p

/-- Contents of a regular file, if present. -/
def fsRead (fs : FS) (p : String) : Option (List Nat) :=
  (fs.files.find? (fun e => e.1 == p)).map (fun e => e.2)

/-- Python `open(p, "wb")` followed by writing `content`: create or truncate. -/
def setFile (fs : FS) (p : String) (content : List Nat) : FS :=
  { fs with files := (p, content) :: fs.files.filter (fun e => e.1 != p) }

/-- Python `shutil.rmtree d`: remove the directory and everything under it. -/
def rmtree (fs : FS) (d : String) : FS :=
  { files := fs.files.filter (fun e => !(strStarts e.1 (d ++ "/"))),
    dirs := fs.dirs.filter (fun x => x != d && !(strStarts x (d ++ "/"))) }

/-- Outcome of `requests.get(url, stream=True)`: HTTP status, the
`content-length` header (0 when missing), the chunks yielded by
`iter_content` before the stream ends, and — when the iteration raises —
the exception text raised after those chunks. -/
structure HttpResponse where
  status : Nat
  contentLength : Nat
  chunks : List (List Nat)
  streamError : Option String
deriving DecidableEq

/-- The `print` diagnostics of `download_file_from_gcs`, by kind. -/
inductive Msg where
  | authError
  | httpError (status : Nat)
  | contentLengthWarning (url : String)
  | transferError (e : String)
deriving DecidableEq

/-- Result of one `download_file_from_gcs` call: the Python return value
(`None` embedded as `none`), the filesystem post-state, the URLs requested,
the diagnostics printed, and whether a progress bar was created / closed. -/
structure DlResult where
  ret : Option String
  fs : FS
  requests : List String
  msgs : List Msg
  barCreated : Bool
  barClosed : Bool
deriving DecidableEq

/-- `DefaultEmbedding.download_file_from_gcs(url, output_path, show_progress=True)`
as a function of its parameters, the filesystem and the HTTP oracle.  The
function itself never raises: every exception during streaming is caught and
turned into a printed message plus a `none` return; the `finally` block closes
the progress bar on both exits, which the embedding renders as
`barClosed := bar` on both branches of the stream outcome. -/
def download_file_from_gcs (url output_path : String) (show_progress : Bool)
    (fs : FS) (http : String → HttpResponse) : DlResult :=
  if fsExists fs output_path then
    { ret := some output_path, fs := fs, requests := [], msgs := [],
      barCreated := false, barClosed := false }
  else
    let response := http url
    if response.status == 403 then
      { ret := none, fs := fs, requests := [url], msgs := [.authError],
        barCreated := false, barClosed := false }
    else if response.status != 200 then
      { ret := none, fs := fs, requests := [url],
        msgs := [.httpError response.status],
        barCreated := false, barClosed := false }
    else
      let total := response.contentLength
      let warn : List Msg :=
        if total == 0 then [.contentLengthWarning url] else []
      let bar := (total != 0) && show_progress
      let written := (response.chunks.filter (fun c => c != [])).flatten
      match response.streamError with
      | some e =>
          { ret := none, fs := setFile fs output_path written,
            requests := [url], msgs := warn ++ [.transferError e],
            barCreated := bar, barClosed := bar }
      | none =>
          { ret := some output_path, fs := setFile fs output_path written,
            requests := [url], msgs := warn,
            barCreated := bar, barClosed := bar }

/-- The exceptions the module raises: `ValueError` for invalid archive input
and for the wrapped extraction failure, `ImportError` for a missing optional
dependency, `TypeError` for failed call-argument binding.  (The spec taxonomy
names the first two `InvalidInput` / `ExtractionError` and the third
`DependencyMissing`.) -/
inductive PyError where
  | valueError (msg : String)
  | importError (msg : String)
  | typeError (msg : String)
deriving DecidableEq

/-- `DefaultEmbedding.decompress_to_cache(targz_path, cache_dir=None)` over the
filesystem, the path `tempfile.mkdtemp()` would allocate, and a tar oracle
mapping the archive bytes to its entries (relative path, contents) or to the
`tarfile.TarError` text.  Returns the Python outcome together with the
filesystem post-state.  The success-path `print` is not modelled. -/
def decompress_to_cache (targz_path : String) (cache_dir : Option String)
    (fs : FS) (mkdtempPath : String)
    (tarExtract : List Nat → Except String (List (String × List Nat))) :
    Except PyError String × FS :=
  if !(fsIsFile fs targz_path) then
    (.error (.valueError (targz_path ++ " does not exist or is not a file.")), fs)
  else if !(strEnds targz_path ".tar.gz") then
    (.error (.valueError (targz_path ++ " is not a .tar.gz file.")), fs)
  else
    let dir := cache_dir.getD mkdtempPath
    let fs1 : FS := match cache_dir with
      | none => { fs with dirs := mkdtempPath :: fs.dirs }
      | some _ => fs
    match tarExtract ((fsRead fs targz_path).getD []) with
    | .ok entries =>
        (.ok dir,
         { fs1 with
             files := entries.map (fun e => (dir ++ "/" ++ e.1, e.2)) ++ fs1.files })
    | .error e =>
        let fs2 := if strHasSubstr dir "tmp" then rmtree fs1 dir else fs1
        (.error (.valueError
            ("An error occurred while decompressing " ++ targz_path ++ ": " ++ e)),
         fs2)

/-- A Python function signature: its name, the declared parameters in order,
and how many trailing parameters carry a default value. -/
structure PySig where
  name : String
  params : List String
  numDefaults : Nat

/-- Python call-argument binding: `numPositional` positional arguments and
`kwargs` keyword-argument names are matched against a signature, yielding a
`TypeError` text on arity overflow, duplicate, unexpected keyword, or a
missing required argument, and the positionally bound parameters otherwise.
A bound method call contributes the receiver (`self`, or `cls` for a
classmethod) as one extra leading positional argument. -/
def bindArgs (sig : PySig) (numPositional : Nat) (kwargs : List String) :
    Except String (List String) :=
  if sig.params.length < numPositional then
    .error (sig.name ++ "() takes " ++ toString sig.params.length ++
      " positional arguments but " ++ toString numPositional ++ " were given")
  else
    let posBound := sig.params.take numPositional
    match kwargs.find? (fun k => posBound.contains k) with
    | some k => .error (sig.name ++ "() got multiple values for argument " ++ k)
    | none =>
      match kwargs.find? (fun k => !(sig.params.contains k)) with
      | some k => .error (sig.name ++ "() got an unexpected keyword argument " ++ k)
      | none =>
        let required := sig.params.take (sig.params.length - sig.numDefaults)
        match (required.drop numPositional).find? (fun p => !(kwargs.contains p)) with
        | some p =>
            .error (sig.name ++ "() missing required positional argument " ++ p)
        | none => .ok posBound

/-- Signature of `download_file_from_gcs(url, output_path, show_progress=True)`
exactly as declared in the source: no `self` parameter and no decorator. -/
def download_file_from_gcs_sig : PySig :=
  { name := "download_file_from_gcs",
    params := ["url", "output_path", "show_progress"], numDefaults := 1 }

/-- Signature of `decompress_to_cache(targz_path, cache_dir=None)` exactly as
declared in the source: no `self` parameter and no decorator. -/
def decompress_to_cache_sig : PySig :=
  { name := "decompress_to_cache",
    params := ["targz_path", "cache_dir"], numDefaults := 1 }

/-- Signature of `average_pool(last_hidden_states, attention_mask)`: declared
`@classmethod` but without a `cls` parameter, so a call through the class
contributes an implicit extra positional argument. -/
def average_pool_sig : PySig :=
  { name := "average_pool",
    params := ["last_hidden_states", "attention_mask"], numDefaults := 0 }

/-- `DefaultEmbedding.__init__(self, model_name=...)`.  The body calls
`self.download_file_from_gcs(url, output_path=...)`: because the method is
declared without `self`, the bound call passes 2 positional arguments
(`self` and the URL) plus the keyword `output_path`, so binding is checked
before the body of the callee can run; the same happens for
`self.decompress_to_cache(targz_path=filepath)` (1 positional plus the
keyword `targz_path`).  Each `.ok` branch continues with the behaviour the
call text requests of the callee's body. -/
def DefaultEmbedding_init (model_name : String) (fs : FS)
    (http : String → HttpResponse) (mkdtempPath : String)
    (tarExtract : List Nat → Except String (List (String × List Nat))) :
    Except PyError (String × FS) :=
  match bindArgs download_file_from_gcs_sig 2 ["output_path"] with
  | .error m => .error (.typeError m)
  | .ok _ =>
    let r := download_file_from_gcs
      "https://storage.googleapis.com/qdrant-fastembed/fast-all-MiniLM-L6-v2.tar.gz"
      "fast-all-MiniLM-L6-v2.tar.gz" true fs http
    match bindArgs decompress_to_cache_sig 1 ["targz_path"] with
    | .error m => .error (.typeError m)
    | .ok _ =>
      match decompress_to_cache (r.ret.getD "") none r.fs mkdtempPath tarExtract with
      | (.ok dir, fs2) => .ok (dir, fs2)
      | (.error e, _) => .error e

/-- Which optional external modules the Python environment can import. -/
structure DepEnv where
  sentence_transformers : Bool
  transformers : Bool
  torchFunctional : Bool
deriving DecidableEq

/-- A constructed `SentenceTransformersEmbedding`: the loaded model, identified
by the name it was loaded from. -/
structure STInstance where
  modelName : String
deriving DecidableEq

/-- `SentenceTransformersEmbedding.__init__`: try to import
`sentence_transformers`, raise `ImportError` if unavailable, otherwise store
`SentenceTransformer(model_name)`. -/
def SentenceTransformersEmbedding_init (env : DepEnv) (model_name : String) :
    Except PyError STInstance :=
  if !env.sentence_transformers then
    .error (.importError
      "Please install the sentence-transformers package to use this method.")
  else
    .ok { modelName := model_name }

/-- `SentenceTransformersEmbedding.encode`: delegates to the stored model's
`encode`, represented by the oracle `modelEncode` keyed by the loaded name. -/
def SentenceTransformersEmbedding_encode (inst : STInstance)
    (modelEncode : String → List String → List (List ℚ))
    (texts : List String) : List (List ℚ) :=
  modelEncode inst.modelName texts

/-- A constructed `GeneralTextEmbedding`: the names the tokenizer and the
model were loaded from. -/
structure GTEInstance where
  tokenizerName : String
  modelName : String
deriving DecidableEq

/-- `GeneralTextEmbedding.__init__(self, model_name="thenlper/gte-large")`:
try to import `torch.nn.functional` and `transformers`, raise `ImportError`
if either is unavailable; otherwise load the tokenizer and the model from
the literal string `"thenlper/gte-large"` — the `model_name` argument is not
used by the body. -/
def GeneralTextEmbedding_init (env : DepEnv) (model_name : String) :
    Except PyError GTEInstance :=
  if !(env.torchFunctional && env.transformers) then
    .error (.importError
      "Please install the transformers package with torch to use this method.")
  else
    .ok { tokenizerName := "thenlper/gte-large", modelName := "thenlper/gte-large" }

/-- The tokenizer output `batch_dict` for a batch of `b` sequences padded to
length `s`: token ids and the attention mask (integer tensors). -/
structure BatchDict (b s : ℕ) where
  input_ids : Fin b → Fin s → ℤ
  attention_mask : Fin b → Fin s → ℤ

/-- `last_hidden_states.masked_fill(~attention_mask[..., None].bool(), 0.0)`:
positions whose mask value is zero are replaced by `0`, broadcasting the mask
over the hidden dimension. -/
def masked_fill_zero {b s d : ℕ} (h : Fin b → Fin s → Fin d → ℚ)
    (mask : Fin b → Fin s → ℤ) : Fin b → Fin s → Fin d → ℚ :=
  fun i j k => if mask i j = 0 then 0 else h i j k

/-- Body of `GeneralTextEmbedding.average_pool`: zero the padded positions,
sum over the sequence dimension, divide per sequence by
`attention_mask.sum(dim=1)` (broadcast over the hidden dimension). -/
def average_pool {b s d : ℕ} (h : Fin b → Fin s → Fin d → ℚ)
    (mask : Fin b → Fin s → ℤ) : Fin b → Fin d → ℚ :=
  fun i k => (∑ j : Fin s, masked_fill_zero h mask i j k) /
    ((∑ j : Fin s, mask i j : ℤ) : ℚ)

/-- `F.normalize(embeddings, p=2, dim=1)`: divide each row by its Euclidean
norm.  The square root is supplied as an oracle because the tensors are
embedded over `ℚ`. -/
def l2normalize {b d : ℕ} (sqrt : ℚ → ℚ) (e : Fin b → Fin d → ℚ) :
    Fin b → Fin d → ℚ :=
  fun i k => e i k / sqrt (∑ j : Fin d, e i j ^ 2)

/-- `(embeddings[:1] @ embeddings[1:].T) * 100`: the dot products of the first
row against each later row, scaled by 100; the result has `min b 1` rows and
`b - 1` columns. -/
def score_head {b d : ℕ} (e : Fin b → Fin d → ℚ) :
    Fin (min b 1) → Fin (b - 1) → ℚ :=
  fun i j =>
    have hi : i.1 < b := by have := i.isLt; omega
    have hj : j.1 + 1 < b := by have := j.isLt; omega
    (∑ k : Fin d, e ⟨i.1, hi⟩ k * e ⟨j.1 + 1, hj⟩ k) * 100

/-- `GeneralTextEmbedding.encode(self, input_texts)`: re-imports
`torch.nn.functional` (raising `ImportError` when absent), tokenizes via the
stored tokenizer, runs the stored model's forward pass, then calls
`GeneralTextEmbedding.average_pool(h, mask)` — a classmethod call that passes
the class plus 2 positional arguments, so binding is checked first; had it
bound, the pooled rows would be L2-normalized and turned into the scaled
score matrix of the first row against the rest. -/
def GeneralTextEmbedding_encode {b s d : ℕ} (env : DepEnv) (inst : GTEInstance)
    (tokenize : String → List String → BatchDict b s)
    (forward : String → BatchDict b s → (Fin b → Fin s → Fin d → ℚ))
    (sqrt : ℚ → ℚ) (input_texts : List String) :
    Except PyError (Fin (min b 1) → Fin (b - 1) → ℚ) :=
  if !env.torchFunctional then
    .error (.importError "Please install Pytorch to use this method.")
  else
    let batch_dict := tokenize inst.tokenizerName input_texts
    let outputs := forward inst.modelName batch_dict
    match bindArgs average_pool_sig 3 [] with
    | .error m => .error (.typeError m)
    | .ok _ =>
      let embeddings := average_pool outputs batch_dict.attention_mask
      .ok (score_head (l2normalize sqrt embeddings))

/-- Claim C1: when the destination path already exists, `download_file_from_gcs`
returns it immediately, issues no HTTP request and leaves the filesystem
unchanged; the second of two such calls again issues no request and returns
the same path. -/
theorem fetch_skips_existing_destination
    (url output_path : String) (show_progress : Bool) (fs : FS)
    (http : String → HttpResponse)
    (hex : fsExists fs output_path = true) :
    (download_file_from_gcs url output_path show_progress fs http).ret = some output_path ∧
    (download_file_from_gcs url output_path show_progress fs http).requests = [] ∧
    (download_file_from_gcs url output_path show_progress fs http).fs = fs ∧
    (download_file_from_gcs url output_path show_progress
      (download_file_from_gcs url output_path show_progress fs http).fs http).ret
        = some output_path ∧
    (download_file_from_gcs url output_path show_progress
      (download_file_from_gcs url output_path show_progress fs http).fs http).requests
        = [] := by
  simp [download_file_from_gcs, hex]

/-- Claim C1 witness: the skip-and-repeat behaviour at a concrete one-file
filesystem whose destination file `f.bin` already exists. -/
theorem fetch_skips_existing_destination_w :
    fsExists ⟨[("f.bin", [])], []⟩ "f.bin" = true ∧
    ((download_file_from_gcs "u" "f.bin" true ⟨[("f.bin", [])], []⟩
        (fun _ => ⟨200, 0, [], none⟩)).ret = some "f.bin" ∧
     (download_file_from_gcs "u" "f.bin" true ⟨[("f.bin", [])], []⟩
        (fun _ => ⟨200, 0, [], none⟩)).requests = [] ∧
     (download_file_from_gcs "u" "f.bin" true ⟨[("f.bin", [])], []⟩
        (fun _ => ⟨200, 0, [], none⟩)).fs = ⟨[("f.bin", [])], []⟩ ∧
     (download_file_from_gcs "u" "f.bin" true
        (download_file_from_gcs "u" "f.bin" true ⟨[("f.bin", [])], []⟩
          (fun _ => ⟨200, 0, [], none⟩)).fs
        (fun _ => ⟨200, 0, [], none⟩)).ret = some "f.bin" ∧
     (download_file_from_gcs "u" "f.bin" true
        (download_file_from_gcs "u" "f.bin" true ⟨[("f.bin", [])], []⟩
          (fun _ => ⟨200, 0, [], none⟩)).fs
        (fun _ => ⟨200, 0, [], none⟩)).requests = []) :=
  ⟨by decide,
   fetch_skips_existing_destination "u" "f.bin" true ⟨[("f.bin", [])], []⟩
     (fun _ => ⟨200, 0, [], none⟩) (by decide)⟩

/-- Claim C4: when the archive path is not a regular file or lacks the
`.tar.gz` extension, `decompress_to_cache` raises a `ValueError` (the spec's
`InvalidInput`) and the filesystem post-state equals the pre-state. -/
theorem extract_rejects_invalid_input
    (targz_path : String) (cache_dir : Option String) (fs : FS)
    (mkdtempPath : String)
    (tarExtract : List Nat → Except String (List (String × List Nat)))
    (hbad : fsIsFile fs targz_path = false ∨ strEnds targz_path ".tar.gz" = false) :
    (∃ m, (decompress_to_cache targz_path cache_dir fs mkdtempPath tarExtract).1
        = .error (.valueError m)) ∧
    (decompress_to_cache targz_path cache_dir fs mkdtempPath tarExtract).2 = fs := by
  rcases hbad with hb | hb
  · constructor
    · exact ⟨targz_path ++ " does not exist or is not a file.",
        by simp [decompress_to_cache, hb]⟩
    · simp [decompress_to_cache, hb]
  · by_cases hf : fsIsFile fs targz_path
    · constructor
      · exact ⟨targz_path ++ " is not a .tar.gz file.",
          by simp [decompress_to_cache, hf, hb]⟩
      · simp [decompress_to_cache, hf, hb]
    · constructor
      · exact ⟨targz_path ++ " does not exist or is not a file.",
          by simp [decompress_to_cache, hf]⟩
      · simp [decompress_to_cache, hf]

/-- Claim C4 witness: a regular file `a.zip` with the wrong extension is
rejected without filesystem mutation. -/
theorem extract_rejects_invalid_input_w :
    (fsIsFile ⟨[("a.zip", [7])], []⟩ "a.zip" = false ∨
      strEnds "a.zip" ".tar.gz" = false) ∧
    ((∃ m, (decompress_to_cache "a.zip" none ⟨[("a.zip", [7])], []⟩ "/tmp/t"
        (fun _ => .ok [])).1 = .error (.valueError m)) ∧
     (decompress_to_cache "a.zip" none ⟨[("a.zip", [7])], []⟩ "/tmp/t"
        (fun _ => .ok [])).2 = ⟨[("a.zip", [7])], []⟩) :=
  ⟨Or.inr (by decide),
   extract_rejects_invalid_input "a.zip" none ⟨[("a.zip", [7])], []⟩ "/tmp/t"
     (fun _ => .ok []) (Or.inr (by decide))⟩

/-- Claim C5: when the destination does not yet exist, a 403 response makes
`download_file_from_gcs` print the authentication message and return `none`,
and any other non-200 status makes it print the generic HTTP-error message and
return `none`; in both cases the filesystem is unchanged (no file written). -/
theorem fetch_http_failures_return_nothing
    (url output_path : String) (show_progress : Bool) (fs : FS)
    (http : String → HttpResponse)
    (hnx : fsExists fs output_path = false) :
    ((http url).status = 403 →
      (download_file_from_gcs url output_path show_progress fs http).ret = none ∧
      (download_file_from_gcs url output_path show_progress fs http).msgs
        = [Msg.authError] ∧
      (download_file_from_gcs url output_path show_progress fs http).fs = fs) ∧
    ((http url).status ≠ 403 → (http url).status ≠ 200 →
      (download_file_from_gcs url output_path show_progress fs http).ret = none ∧
      (download_file_from_gcs url output_path show_progress fs http).msgs
        = [Msg.httpError (http url).status] ∧
      (download_file_from_gcs url output_path show_progress fs http).fs = fs) := by
  constructor
  · intro h403
    simp [download_file_from_gcs, hnx, h403]
  · intro h403 h200
    simp [download_file_from_gcs, hnx, h403, h200]

/-- Claim C5 witness: a 403 response at an empty filesystem yields the
authentication message, a `none` result and no written file. -/
theorem fetch_http_failures_return_nothing_w :
    fsExists ⟨[], []⟩ "out" = false ∧
    ((download_file_from_gcs "u" "out" true ⟨[], []⟩
        (fun _ => ⟨403, 9, [[1]], none⟩)).ret = none ∧
     (download_file_from_gcs "u" "out" true ⟨[], []⟩
        (fun _ => ⟨403, 9, [[1]], none⟩)).msgs = [Msg.authError] ∧
     (download_file_from_gcs "u" "out" true ⟨[], []⟩
        (fun _ => ⟨403, 9, [[1]], none⟩)).fs = ⟨[], []⟩) :=
  ⟨by decide,
   (fetch_http_failures_return_nothing "u" "out" true ⟨[], []⟩
     (fun _ => ⟨403, 9, [[1]], none⟩) (by decide)).1 (by decide)⟩

/-- Claim C6: on a 200 response to a missing destination, the progress bar is
closed exactly when it was created, on both exits; an exception during
streaming yields a `none` result together with a logged transfer error (the
function itself never raises — its result type is not an exception), and a
clean stream returns the destination path. -/
theorem fetch_stream_exception_swallowed
    (url output_path : String) (show_progress : Bool) (fs : FS)
    (http : String → HttpResponse)
    (hnx : fsExists fs output_path = false)
    (hok : (http url).status = 200) :
    ((download_file_from_gcs url output_path show_progress fs http).barClosed =
      (download_file_from_gcs url output_path show_progress fs http).barCreated) ∧
    ((http url).streamError.isSome = true →
      (download_file_from_gcs url output_path show_progress fs http).ret = none ∧
      (download_file_from_gcs url output_path show_progress fs http).msgs.contains
        (Msg.transferError ((http url).streamError.getD "")) = true) ∧
    ((http url).streamError = none →
      (download_file_from_gcs url output_path show_progress fs http).ret
        = some output_path) := by
  refine ⟨?_, ?_, ?_⟩
  · cases hse : (http url).streamError <;>
      simp [download_file_from_gcs, hnx, hok, hse]
  · intro hsome
    cases hse : (http url).streamError with
    | none => rw [hse] at hsome; simp at hsome
    | some e => simp [download_file_from_gcs, hnx, hok, hse]
  · intro hse
    simp [download_file_from_gcs, hnx, hok, hse]

/-- Claim C6 witness: a stream that yields two chunks and then raises `boom`
produces a `none` result, logs the transfer error, and the progress bar is
closed exactly as often as created. -/
theorem fetch_stream_exception_swallowed_w :
    fsExists ⟨[], []⟩ "out" = false ∧
    ((fun _ : String => HttpResponse.mk 200 5 [[1], [2]] (some "boom")) "u").status = 200 ∧
    (((download_file_from_gcs "u" "out" true ⟨[], []⟩
        (fun _ => ⟨200, 5, [[1], [2]], some "boom"⟩)).barClosed =
      (download_file_from_gcs "u" "out" true ⟨[], []⟩
        (fun _ => ⟨200, 5, [[1], [2]], some "boom"⟩)).barCreated) ∧
     (download_file_from_gcs "u" "out" true ⟨[], []⟩
        (fun _ => ⟨200, 5, [[1], [2]], some "boom"⟩)).ret = none ∧
     (download_file_from_gcs "u" "out" true ⟨[], []⟩
        (fun _ => ⟨200, 5, [[1], [2]], some "boom"⟩)).msgs.contains
          (Msg.transferError "boom") = true) :=
  ⟨by decide, by decide,
   (fetch_stream_exception_swallowed "u" "out" true ⟨[], []⟩
      (fun _ => ⟨200, 5, [[1], [2]], some "boom"⟩) (by decide) (by decide)).1,
   ((fetch_stream_exception_swallowed "u" "out" true ⟨[], []⟩
      (fun _ => ⟨200, 5, [[1], [2]], some "boom"⟩) (by decide) (by decide)).2.1
      (by decide)).1,
   ((fetch_stream_exception_swallowed "u" "out" true ⟨[], []⟩
      (fun _ => ⟨200, 5, [[1], [2]], some "boom"⟩) (by decide) (by decide)).2.1
      (by decide)).2⟩

/-- The directory removed by `rmtree` is no longer among the directories. -/
theorem rmtree_not_mem_dirs (fs : FS) (d : String) : d ∉ (rmtree fs d).dirs := by
  intro hmem
  rw [rmtree, List.mem_filter] at hmem
  simp at hmem

/-- Re-filtering for paths under a prefix after filtering them away is empty. -/
theorem filter_under_removed_files (l : List (String × List Nat)) (pre : String) :
    List.filter (fun fe => strStarts fe.1 pre)
      (List.filter (fun fe => !(strStarts fe.1 pre)) l) = [] := by
  induction l with
  | nil => rfl
  | cons a t ih => by_cases hh : strStarts a.1 pre <;> simp [hh, ih]

/-- Re-filtering for directories under a removed directory is empty. -/
theorem filter_under_removed_dirs (l : List String) (d : String) :
    List.filter (fun x => strStarts x (d ++ "/"))
      (List.filter (fun x => x != d && !(strStarts x (d ++ "/"))) l) = [] := by
  induction l with
  | nil => rfl
  | cons a t ih =>
      by_cases hd : a = d
      · simp [hd, ih]
      · by_cases hh : strStarts a (d ++ "/") <;> simp [hd, hh, ih]

/-- Claim C2 counterexample: a caller-supplied cache directory whose path
contains the substring `tmp` (here `my_tmp_cache`, an existing directory) is
recursively deleted on extraction failure rather than left untouched: after
the failing call its directory entry is gone. -/
theorem extract_deletes_caller_supplied_dir_cex :
    (decompress_to_cache "model.tar.gz" (some "my_tmp_cache")
        ⟨[("model.tar.gz", [1])], ["my_tmp_cache"]⟩ "/tmp/alloc"
        (fun _ => .error "not a gzip file")).2.dirs = [] ∧
    (decompress_to_cache "model.tar.gz" (some "my_tmp_cache")
        ⟨[("model.tar.gz", [1])], ["my_tmp_cache"]⟩ "/tmp/alloc"
        (fun _ => .error "not a gzip file")).1 =
      .error (.valueError
        "An error occurred while decompressing model.tar.gz: not a gzip file") := by
  constructor
  · decide
  · rfl

/-- Claim C2 (amended): on extraction failure `decompress_to_cache` raises a
`ValueError` carrying the original cause, and the cache directory is
recursively deleted exactly when its path contains the substring `tmp` — the
heuristic the code uses to recognise its own `mkdtemp` allocation.  A
caller-supplied directory whose path avoids `tmp` is left untouched (the
filesystem post-state equals the pre-state); one containing `tmp` is deleted,
contrary to the original claim. -/
theorem extract_failure_cleanup_by_tmp_substring
    (targz_path : String) (cache_dir : Option String) (fs : FS)
    (mkdtempPath : String)
    (tarExtract : List Nat → Except String (List (String × List Nat)))
    (e : String)
    (hfile : fsIsFile fs targz_path = true)
    (hext : strEnds targz_path ".tar.gz" = true)
    (hfail : tarExtract ((fsRead fs targz_path).getD []) = .error e) :
    (decompress_to_cache targz_path cache_dir fs mkdtempPath tarExtract).1 =
      .error (.valueError
        ("An error occurred while decompressing " ++ targz_path ++ ": " ++ e)) ∧
    (strHasSubstr (cache_dir.getD mkdtempPath) "tmp" = true →
      (cache_dir.getD mkdtempPath) ∉
        (decompress_to_cache targz_path cache_dir fs mkdtempPath tarExtract).2.dirs ∧
      (decompress_to_cache targz_path cache_dir fs mkdtempPath tarExtract).2.files.filter
        (fun fe => strStarts fe.1 ((cache_dir.getD mkdtempPath) ++ "/")) = [] ∧
      (decompress_to_cache targz_path cache_dir fs mkdtempPath tarExtract).2.dirs.filter
        (fun x => strStarts x ((cache_dir.getD mkdtempPath) ++ "/")) = []) ∧
    (cache_dir.isSome = true →
      strHasSubstr (cache_dir.getD mkdtempPath) "tmp" = false →
      (decompress_to_cache targz_path cache_dir fs mkdtempPath tarExtract).2 = fs) := by
  refine ⟨?_, ?_, ?_⟩
  · simp [decompress_to_cache, hfile, hext, hfail]
  · intro hsub
    refine ⟨?_, ?_, ?_⟩
    · simp only [decompress_to_cache, hfile, hext, hfail, Bool.not_true,
        Bool.false_eq_true, if_false, hsub, if_true]
      exact rmtree_not_mem_dirs _ _
    · simp only [decompress_to_cache, hfile, hext, hfail, Bool.not_true,
        Bool.false_eq_true, if_false, hsub, if_true]
      exact filter_under_removed_files _ _
    · simp only [decompress_to_cache, hfile, hext, hfail, Bool.not_true,
        Bool.false_eq_true, if_false, hsub, if_true]
      exact filter_under_removed_dirs _ _
  · intro hsome hsub
    cases cache_dir with
    | none => simp at hsome
    | some dd =>
        simp only [Option.getD_some] at hsub
        simp [decompress_to_cache, hfile, hext, hfail, hsub]

/-- Claim C2 (amended) witness: an auto-allocated temp directory `/tmp/alloc`
is removed on extraction failure, and the wrapped error is raised. -/
theorem extract_failure_cleanup_by_tmp_substring_w :
    fsIsFile ⟨[("m.tar.gz", [1])], []⟩ "m.tar.gz" = true ∧
    strEnds "m.tar.gz" ".tar.gz" = true ∧
    (fun _ : List Nat => (Except.error "bad" :
        Except String (List (String × List Nat))))
      ((fsRead ⟨[("m.tar.gz", [1])], []⟩ "m.tar.gz").getD []) = .error "bad" ∧
    ((decompress_to_cache "m.tar.gz" none ⟨[("m.tar.gz", [1])], []⟩ "/tmp/alloc"
        (fun _ => .error "bad")).1 =
      .error (.valueError
        ("An error occurred while decompressing " ++ "m.tar.gz" ++ ": " ++ "bad")) ∧
     (strHasSubstr ((none : Option String).getD "/tmp/alloc") "tmp" = true →
       ((none : Option String).getD "/tmp/alloc") ∉
         (decompress_to_cache "m.tar.gz" none ⟨[("m.tar.gz", [1])], []⟩ "/tmp/alloc"
            (fun _ => .error "bad")).2.dirs ∧
       (decompress_to_cache "m.tar.gz" none ⟨[("m.tar.gz", [1])], []⟩ "/tmp/alloc"
          (fun _ => .error "bad")).2.files.filter
            (fun fe => strStarts fe.1 (((none : Option String).getD "/tmp/alloc") ++ "/"))
          = [] ∧
       (decompress_to_cache "m.tar.gz" none ⟨[("m.tar.gz", [1])], []⟩ "/tmp/alloc"
          (fun _ => .error "bad")).2.dirs.filter
            (fun x => strStarts x (((none : Option String).getD "/tmp/alloc") ++ "/"))
          = []) ∧
     ((none : Option String).isSome = true →
       strHasSubstr ((none : Option String).getD "/tmp/alloc") "tmp" = false →
       (decompress_to_cache "m.tar.gz" none ⟨[("m.tar.gz", [1])], []⟩ "/tmp/alloc"
          (fun _ => .error "bad")).2 = ⟨[("m.tar.gz", [1])], []⟩)) :=
  ⟨by decide, by decide, rfl,
   extract_failure_cleanup_by_tmp_substring "m.tar.gz" none
     ⟨[("m.tar.gz", [1])], []⟩ "/tmp/alloc" (fun _ => .error "bad") "bad"
     (by decide) (by decide) rfl⟩

/-- Claim C3: constructing `DefaultEmbedding` does not download or extract
anything: because `download_file_from_gcs` is declared without a `self`
parameter, the bound call in `__init__` binds `self` to `url` and the URL
string to `output_path`, which collides with the `output_path` keyword, so
every construction raises a `TypeError` before any request is issued,
whatever the `model_name`, the filesystem, the HTTP oracle or the tar oracle. -/
theorem default_embedding_init_raises_type_error
    (model_name : String) (fs : FS) (http : String → HttpResponse)
    (mkdtempPath : String)
    (tarExtract : List Nat → Except String (List (String × List Nat))) :
    DefaultEmbedding_init model_name fs http mkdtempPath tarExtract =
      .error (.typeError
        "download_file_from_gcs() got multiple values for argument output_path") :=
  rfl

/-- Claim C7: for a 0/1 attention mask, the pooled vector of each sequence
computed by the `average_pool` body is the mean of exactly the non-padded
token vectors: the masked sum over the sequence divided by the number of
unmasked positions of that sequence. -/
theorem average_pool_is_masked_mean
    {b s d : ℕ} (h : Fin b → Fin s → Fin d → ℚ) (mask : Fin b → Fin s → ℤ)
    (i : Fin b) (k : Fin d)
    (hmask : ∀ j, mask i j = 0 ∨ mask i j = 1) :
    average_pool h mask i k =
      (∑ j ∈ Finset.univ.filter (fun j => mask i j ≠ 0), h i j k) /
        ((Finset.univ.filter (fun j : Fin s => mask i j ≠ 0)).card : ℚ) := by
  have hnum : (∑ j : Fin s, masked_fill_zero h mask i j k) =
      ∑ j ∈ Finset.univ.filter (fun j => mask i j ≠ 0), h i j k := by
    rw [Finset.sum_filter]
    refine Finset.sum_congr rfl (fun j _ => ?_)
    by_cases hj : mask i j = 0 <;> simp [masked_fill_zero, hj]
  have hcard : (∑ j : Fin s, mask i j) =
      ((Finset.univ.filter (fun j : Fin s => mask i j ≠ 0)).card : ℤ) := by
    rw [Finset.card_filter]
    push_cast
    refine Finset.sum_congr rfl (fun j _ => ?_)
    rcases hmask j with h0 | h1
    · simp [h0]
    · simp [h1]
  unfold average_pool
  rw [hnum, hcard]
  push_cast
  rfl

/-- Claim C7 witness: one sequence of length two whose second position is
padding; its pooled value is the mean over the single unmasked position. -/
theorem average_pool_is_masked_mean_w :
    (∀ j : Fin 2, (fun (_ : Fin 1) (j : Fin 2) => if j.1 = 0 then (1 : ℤ) else 0) 0 j = 0 ∨
      (fun (_ : Fin 1) (j : Fin 2) => if j.1 = 0 then (1 : ℤ) else 0) 0 j = 1) ∧
    average_pool (fun (_ : Fin 1) (j : Fin 2) (_ : Fin 1) => if j.1 = 0 then (2 : ℚ) else 5)
      (fun (_ : Fin 1) (j : Fin 2) => if j.1 = 0 then (1 : ℤ) else 0) 0 0 =
      (∑ j ∈ Finset.univ.filter
          (fun j : Fin 2 =>
            (fun (_ : Fin 1) (j : Fin 2) => if j.1 = 0 then (1 : ℤ) else 0) 0 j ≠ 0),
          (fun (_ : Fin 1) (j : Fin 2) (_ : Fin 1) => if j.1 = 0 then (2 : ℚ) else 5) 0 j 0) /
        ((Finset.univ.filter
          (fun j : Fin 2 =>
            (fun (_ : Fin 1) (j : Fin 2) => if j.1 = 0 then (1 : ℤ) else 0) 0 j ≠ 0)).card : ℚ) :=
  ⟨by decide,
   average_pool_is_masked_mean
     (fun (_ : Fin 1) (j : Fin 2) (_ : Fin 1) => if j.1 = 0 then (2 : ℚ) else 5)
     (fun (_ : Fin 1) (j : Fin 2) => if j.1 = 0 then (1 : ℤ) else 0) 0 0 (by decide)⟩

/-- Claim C8: whenever the torch import inside `encode` succeeds,
`GeneralTextEmbedding.encode` raises a `TypeError` at the
`GeneralTextEmbedding.average_pool(...)` call — the classmethod passes the
class as an implicit third positional argument to a two-parameter function —
so no similarity score matrix is ever returned. -/
theorem gte_encode_raises_type_error
    {b s d : ℕ} (env : DepEnv) (inst : GTEInstance)
    (tokenize : String → List String → BatchDict b s)
    (forward : String → BatchDict b s → (Fin b → Fin s → Fin d → ℚ))
    (sqrt : ℚ → ℚ) (input_texts : List String)
    (htorch : env.torchFunctional = true) :
    GeneralTextEmbedding_encode env inst tokenize forward sqrt input_texts =
      .error (.typeError
        "average_pool() takes 2 positional arguments but 3 were given") := by
  rw [GeneralTextEmbedding_encode, htorch]
  rfl

/-- Claim C8 witness: a concrete two-text batch under an environment with all
libraries present still produces the `TypeError`, not a score matrix. -/
theorem gte_encode_raises_type_error_w :
    (DepEnv.mk true true true).torchFunctional = true ∧
    GeneralTextEmbedding_encode (DepEnv.mk true true true)
      ⟨"thenlper/gte-large", "thenlper/gte-large"⟩
      (fun _ _ => (⟨fun _ _ => 1, fun _ _ => 1⟩ : BatchDict 2 1))
      (fun _ _ => (fun _ _ _ => (1 : ℚ) : Fin 2 → Fin 1 → Fin 1 → ℚ))
      (fun q => q) ["what is a cat", "a cat is a feline"] =
      .error (.typeError
        "average_pool() takes 2 positional arguments but 3 were given") :=
  ⟨rfl,
   gte_encode_raises_type_error (DepEnv.mk true true true)
     ⟨"thenlper/gte-large", "thenlper/gte-large"⟩
     (fun _ _ => (⟨fun _ _ => 1, fun _ _ => 1⟩ : BatchDict 2 1))
     (fun _ _ => (fun _ _ _ => (1 : ℚ) : Fin 2 → Fin 1 → Fin 1 → ℚ))
     (fun q => q) ["what is a cat", "a cat is a feline"] rfl⟩

/-- Claim C9: each delegated variant resolves its optional dependency at
construction: a missing library makes `__init__` raise the `ImportError` (the
spec's `DependencyMissing`), while with the libraries present construction
succeeds and the constructed instance's `encode` needs no re-initialization —
the sentence-transformers variant delegates straight to the stored model, and
the transformer variant's `encode` never fails with an `ImportError` in the
environment its construction succeeded in. -/
theorem dependency_missing_raised_at_construction
    (env : DepEnv) (name : String) :
    (env.sentence_transformers = false →
      SentenceTransformersEmbedding_init env name =
        .error (.importError
          "Please install the sentence-transformers package to use this method.")) ∧
    ((env.torchFunctional = false ∨ env.transformers = false) →
      GeneralTextEmbedding_init env name =
        .error (.importError
          "Please install the transformers package with torch to use this method.")) ∧
    (env.sentence_transformers = true →
      SentenceTransformersEmbedding_init env name = .ok ⟨name⟩ ∧
      ∀ (modelEncode : String → List String → List (List ℚ)) (texts : List String),
        SentenceTransformersEmbedding_encode ⟨name⟩ modelEncode texts =
          modelEncode name texts) ∧
    (env.torchFunctional = true → env.transformers = true →
      GeneralTextEmbedding_init env name =
        .ok ⟨"thenlper/gte-large", "thenlper/gte-large"⟩ ∧
      ∀ (b s d : ℕ) (inst : GTEInstance)
        (tokenize : String → List String → BatchDict b s)
        (forward : String → BatchDict b s → (Fin b → Fin s → Fin d → ℚ))
        (sqrt : ℚ → ℚ) (texts : List String) (m : String),
        @GeneralTextEmbedding_encode b s d env inst tokenize forward sqrt texts ≠
          .error (.importError m)) := by
  refine ⟨?_, ?_, ?_, ?_⟩
  · intro hst
    simp [SentenceTransformersEmbedding_init, hst]
  · intro hmiss
    rcases hmiss with hm | hm <;> simp [GeneralTextEmbedding_init, hm]
  · intro hst
    exact ⟨by simp [SentenceTransformersEmbedding_init, hst],
      fun modelEncode texts => rfl⟩
  · intro ht htr
    refine ⟨by simp [GeneralTextEmbedding_init, ht, htr], ?_⟩
    intro b s d inst tokenize forward sqrt texts m
    rw [GeneralTextEmbedding_encode, ht]
    rw [show bindArgs average_pool_sig 3 [] = Except.error
      "average_pool() takes 2 positional arguments but 3 were given" from rfl]
    simp

/-- Claim C9 witness: with no optional library importable both constructors
raise their `ImportError`; with everything importable both succeed. -/
theorem dependency_missing_raised_at_construction_w :
    SentenceTransformersEmbedding_init ⟨false, false, false⟩ "m" =
      .error (.importError
        "Please install the sentence-transformers package to use this method.") ∧
    GeneralTextEmbedding_init ⟨false, false, false⟩ "m" =
      .error (.importError
        "Please install the transformers package with torch to use this method.") ∧
    SentenceTransformersEmbedding_init ⟨true, true, true⟩ "m" = .ok ⟨"m"⟩ ∧
    GeneralTextEmbedding_init ⟨true, true, true⟩ "m" =
      .ok ⟨"thenlper/gte-large", "thenlper/gte-large"⟩ :=
  ⟨(dependency_missing_raised_at_construction ⟨false, false, false⟩ "m").1 rfl,
   (dependency_missing_raised_at_construction ⟨false, false, false⟩ "m").2.1
     (Or.inl rfl),
   ((dependency_missing_raised_at_construction ⟨true, true, true⟩ "m").2.2.1 rfl).1,
   ((dependency_missing_raised_at_construction ⟨true, true, true⟩ "m").2.2.2
     rfl rfl).1⟩

/-- Claim C10 counterexample: constructing `GeneralTextEmbedding` with the
model name `all-mpnet-base-v2` loads the tokenizer and model named
`thenlper/gte-large`, not the ones named by the argument. -/
theorem gte_init_ignores_model_name_cex :
    GeneralTextEmbedding_init ⟨true, true, true⟩ "all-mpnet-base-v2" =
      .ok ⟨"thenlper/gte-large", "thenlper/gte-large"⟩ ∧
    ("thenlper/gte-large" : String) ≠ "all-mpnet-base-v2" := by
  exact ⟨rfl, by decide⟩

/-- Claim C10 (amended): whenever its imports succeed,
`GeneralTextEmbedding.__init__` loads the tokenizer and the model from the
fixed literal `thenlper/gte-large`, ignoring the `model_name` argument;
the loaded names match the argument only when the caller passes that exact
string. -/
theorem gte_init_loads_fixed_name
    (env : DepEnv) (model_name : String)
    (ht : env.torchFunctional = true) (htr : env.transformers = true) :
    GeneralTextEmbedding_init env model_name =
      .ok ⟨"thenlper/gte-large", "thenlper/gte-large"⟩ := by
  simp [GeneralTextEmbedding_init, ht, htr]

/-- Claim C10 (amended) witness: the fixed name is loaded for a concrete
non-default argument. -/
theorem gte_init_loads_fixed_name_w :
    (DepEnv.mk true true true).torchFunctional = true ∧
    (DepEnv.mk true true true).transformers = true ∧
    GeneralTextEmbedding_init ⟨true, true, true⟩ "all-mpnet-base-v2" =
      .ok ⟨"thenlper/gte-large", "thenlper/gte-large"⟩ :=
  ⟨rfl, rfl, gte_init_loads_fixed_name ⟨true, true, true⟩ "all-mpnet-base-v2" rfl rfl⟩

end Fastembed
